import Mathlib

/-!
Shallow embedding of `src/app.py`: a Flask media-conversion relay with JWT
authentication, an hourly quota ledger in PostgreSQL, TikTok URL validation,
and a download-transcode-stream pipeline with temp-directory cleanup.
Definitions are translated from the source; external collaborators (the JWKS
client plus `jwt.decode`, the database, the two child processes, the WSGI
consumer) are modelled by their interfaces as environment parameters.
-/

/-- Python `str.strip()` with no argument (src/app.py:156): removes leading
and trailing whitespace characters from both ends. -/
def pyStrip (s : String) : String :=
  String.mk (((s.toList.dropWhile Char.isWhitespace).reverse.dropWhile
    Char.isWhitespace).reverse)

/-- Does the character list `pat` occur at the head of `hay`? -/
def listStarts : List Char → List Char → Bool
  | [], _ => true
  | _ :: _, [] => false
  | p :: ps, h :: hs => p == h && listStarts ps hs

/-- Python `str.startswith`. -/
def pyStartsWith (s pre : String) : Bool := listStarts pre.toList s.toList

/-- Drop the first n characters of a string (Python slicing `s[n:]`). -/
def pyDrop (s : String) (n : Nat) : String := String.mk (s.toList.drop n)

/-- Substring containment on character lists. -/
def listContainsSub (pat : List Char) : List Char → Bool
  | [] => pat.isEmpty
  | c :: t => listStarts pat (c :: t) || listContainsSub pat t

/-- Substring containment on strings; used to model `re.search` applied to a
pattern that is an alternation of two escaped literals. -/
def strContainsSub (hay pat : String) : Bool :=
  listContainsSub pat.toList hay.toList

/-- src/app.py:127-128 `is_valid_tiktok_url`: `re.search` with the pattern
alternating the two literals `vm.tiktok.com` and `tiktok.com` (dots escaped),
i.e. true iff either literal occurs as a substring of `url`. -/
def is_valid_tiktok_url (url : String) : Bool :=
  strContainsSub url "vm.tiktok.com" || strContainsSub url "tiktok.com"

/-- JSON values as far as the handler inspects them. -/
inductive JsonValue where
  | jstr (s : String)
  | jnum (n : Int)
  | jbool (b : Bool)
  | jnull
deriving DecidableEq

/-- A parsed JSON object body: an association list of fields. -/
abbrev JsonObj := List (String × JsonValue)

/-- Python `dict.get(key)`: the first binding for `key`, or `None`. -/
def dictGet : JsonObj → String → Option JsonValue
  | [], _ => none
  | (k, v) :: rest, key => if k = key then some v else dictGet rest key

/-- Python exceptions that can escape the modelled handler uncaught. -/
inductive PyExn where
  | attributeError
deriving DecidableEq

/-- Result of running Python code that may raise an uncaught exception. -/
inductive PyResult (α : Type) where
  | ok (a : α)
  | exn (e : PyExn)
deriving DecidableEq

/-- src/app.py:155-156:
`data = request.get_json(silent=True)` (`none` = absent or unparseable body);
`url = data.get("url").strip() if data else None`.  An empty JSON object is
falsy in Python, so it also yields `url = None`.  When the `"url"` key is
missing, `data.get("url")` is `None` and `None.strip()` raises
`AttributeError`; a non-string value likewise has no `.strip`. -/
def extract_url (data : Option JsonObj) : PyResult (Option String) :=
  match data with
  | none => .ok none
  | some obj =>
    if obj.isEmpty then .ok none
    else
      match dictGet obj "url" with
      | some (.jstr s) => .ok (some (pyStrip s))
      | some _ => .exn .attributeError
      | none => .exn .attributeError

/-- Semantic content of a bearer token string as judged by the external JWKS
client and `jwt.decode`: whether the key id resolves to a signing key, the
signature algorithm, signature validity, the registered claims, the subject. -/
structure Token where
  kidFound : Bool
  alg : String
  sigValid : Bool
  issuer : String
  audience : String
  expired : Bool
  sub : String
deriving DecidableEq

/-- Deployment configuration (src/app.py:33-35): expected issuer/audience. -/
structure AuthConfig where
  jwt_issuer : String
  jwt_audience : String
deriving DecidableEq

/-- src/app.py:78-102 `verify_jwt_and_get_user`: header not of the form
`Bearer <token>` gives `None`; otherwise the token text after the first
space (the header starts with the 7 characters of `"Bearer "`, so this is
`auth[7:]`) is resolved and decoded inside `try`, with
`jwt.decode(..., algorithms=["ES256"], audience=..., issuer=...)`; any
exception (missing key id, bad signature, wrong algorithm, wrong issuer or
audience, expiry) is caught and collapses to `None`. `world` gives the
semantics of each token string. -/
def verify_jwt_and_get_user (cfg : AuthConfig) (world : String → Token)
    (authHeader : Option String) : Option String :=
  let auth := authHeader.getD ""
  if pyStartsWith auth "Bearer " then
    let t := world (pyDrop auth 7)
    if t.kidFound then
      if t.alg = "ES256" ∧ t.sigValid = true ∧ t.issuer = cfg.jwt_issuer ∧
          t.audience = cfg.jwt_audience ∧ t.expired = false then
        some t.sub
      else none
    else none
  else none

/-- Rows of the `api_usage` table: (user_id, hour_bucket, count).  The hour
bucket is an abstract hour index, `date_trunc('hour', now())` computed by the
store. -/
abbrev Ledger := List (String × Nat × Nat)

/-- Lookup of the row keyed by (user_id, hour_bucket). -/
def findRow : Ledger → String → Nat → Option Nat
  | [], _, _ => none
  | (u, b, c) :: rest, uid, bucket =>
    if u = uid ∧ b = bucket then some c else findRow rest uid bucket

/-- Replace the count of the row keyed by (user_id, hour_bucket). -/
def updateRow : Ledger → String → Nat → Nat → Ledger
  | [], _, _, _ => []
  | (u, b, c) :: rest, uid, bucket, v =>
    if u = uid ∧ b = bucket then (u, b, v) :: rest
    else (u, b, c) :: updateRow rest uid bucket v

/-- src/app.py:107-122 `increment_usage`: the single atomic upsert
`INSERT ... VALUES (uid, date_trunc('hour', now()), 1)
 ON CONFLICT (user_id, hour_bucket) DO UPDATE SET count = api_usage.count + 1
 RETURNING count`, modelled as one state transition on the table returning
the post-increment count. -/
def increment_usage (rows : Ledger) (uid : String) (bucket : Nat) : Ledger × Nat :=
  match findRow rows uid bucket with
  | none => ((uid, bucket, 1) :: rows, 1)
  | some c => (updateRow rows uid bucket (c + 1), c + 1)

/-- n successive calls of `increment_usage` for the same (identity, bucket);
returns the final table and the last returned count (0 when n = 0). -/
def iterate_usage (rows : Ledger) (uid : String) (bucket : Nat) : Nat → Ledger × Nat
  | 0 => (rows, 0)
  | n + 1 =>
    let r := iterate_usage rows uid bucket n
    increment_usage r.1 uid bucket

/-- Connection-pool state: the number of checked-out connections. -/
structure PoolState where
  checkedOut : Nat
deriving DecidableEq

/-- Whether the SQL execution / fetch inside `increment_usage` succeeds or
raises (store connectivity or constraint failure). -/
inductive DbOutcome where
  | succeeds
  | raises
deriving DecidableEq

/-- src/app.py:107-122 with the pool explicit: `conn = get_conn()` checks a
connection out, the body runs inside `try`, and `finally: release_conn(conn)`
returns it on both the normal and the raising path (the exception still
propagating afterwards, as `Except.error`). -/
def increment_usage_pooled (o : DbOutcome) (p : PoolState) (rows : Ledger)
    (uid : String) (bucket : Nat) : PoolState × Except Unit (Ledger × Nat) :=
  let p1 : PoolState := ⟨p.checkedOut + 1⟩
  match o with
  | .succeeds => (⟨p1.checkedOut - 1⟩, .ok (increment_usage rows uid bucket))
  | .raises => (⟨p1.checkedOut - 1⟩, .error ())

/-- A UTC instant: absolute hour index (encoding the date and the hour of
day) plus the sub-hour fields — exactly the granularity `datetime` needs for
`replace(minute=0, second=0, microsecond=0)`. -/
structure UtcTime where
  hourIndex : Nat
  minute : Nat
  second : Nat
  microsecond : Nat
deriving DecidableEq

/-- src/app.py:146-148:
`datetime.now(timezone.utc).replace(minute=0, second=0, microsecond=0)` —
the current time truncated to the start of the CURRENT hour. -/
def truncToHour (t : UtcTime) : UtcTime := ⟨t.hourIndex, 0, 0, 0⟩

/-- Modelled from the spec: the `reset_at` the spec requires in the 429
body — the "next hour boundary", i.e. the start of the hour after the
current one. -/
def spec_next_hour_boundary (t : UtcTime) : UtcTime := ⟨t.hourIndex + 1, 0, 0, 0⟩

def QUOTA_PER_HOUR : Nat := 30

/-- Outcome of the external world for one pipeline run: the fresh unique
temp-directory name `mkdtemp` picks, the exit codes and stderr text of the
two child processes, the byte size of the produced MP3, and how many chunks
the response consumer pulls before closing the stream (any number at least
the chunk count means full consumption). -/
structure PipelineEnv where
  tempDirName : String
  downloaderExit : Nat
  downloaderStderr : String
  transcoderExit : Nat
  transcoderStderr : String
  mp3Size : Nat
  consumerPulls : Nat
deriving DecidableEq

/-- Per-request environment: auth config, token semantics, pipeline world,
the app clock reading used in the 429 body, and the store's hour bucket. -/
structure HandlerEnv where
  cfg : AuthConfig
  world : String → Token
  pipe : PipelineEnv
  now : UtcTime
  bucket : Nat

/-- Observable state threaded through one request: the `api_usage` table,
the number of upsert calls made, the argv of every spawned child process,
and whether this request's temp directory has been created / deleted. -/
structure HandlerState where
  ledger : Ledger
  dbCalls : Nat
  spawned : List (List String)
  tempDirCreated : Bool
  tempDirDeleted : Bool
deriving DecidableEq

def initState : HandlerState := ⟨[], 0, [], false, false⟩

/-- The handler's possible responses (src/app.py:133-228). -/
inductive HandlerResult where
  | optionsOk
  | unauthorized
  | quotaExceeded (limit : Nat) (reset_at : UtcTime)
  | invalidUrl
  | pipelineError (details : String)
  | audioStream (contentLength : Nat) (delivered : List Nat)
deriving DecidableEq

/-- HTTP status of each response. -/
def statusCode : HandlerResult → Nat
  | .optionsOk => 200
  | .unauthorized => 401
  | .quotaExceeded _ _ => 429
  | .invalidUrl => 400
  | .pipelineError _ => 500
  | .audioStream _ _ => 200

/-- src/app.py:167-181: the yt-dlp invocation argv (`sys.executable`
modelled as "python"). -/
def ytdlpArgv (video_path url : String) : List String :=
  ["python", "-m", "yt_dlp", "-f", "bv*+ba/b", "--merge-output-format", "mp4",
   "--no-part", "--no-playlist", "--quiet", "-o", video_path, url]

/-- src/app.py:184-196: the ffmpeg invocation argv. -/
def ffmpegArgv (video_path audio_path : String) : List String :=
  ["ffmpeg", "-y", "-i", video_path, "-vn", "-acodec", "libmp3lame",
   "-ab", "192k", audio_path]

/-- Chunk sizes produced by the read loop `f.read(8192)` of `generate`
(src/app.py:203-207) over a file of `rem` bytes; the first argument is fuel
bounding the iteration (the byte count itself suffices, each read consuming
at least one byte). -/
def chunkSizesAux : Nat → Nat → List Nat
  | _, 0 => []
  | 0, _ => []
  | fuel + 1, rem =>
    if rem ≤ 8192 then [rem]
    else 8192 :: chunkSizesAux fuel (rem - 8192)

/-- All chunks of a `size`-byte file. -/
def chunkSizes (size : Nat) : List Nat := chunkSizesAux size size

/-- src/app.py:200-209 `generate`: yields chunks inside `try`, with
`finally: shutil.rmtree(temp_dir, ignore_errors=True)`.  The WSGI layer
iterates the response and closes the generator, so the `finally` block —
hence the deletion — runs whether the consumer pulls every chunk or closes
the stream partway (a `GeneratorExit` raised at the `yield`). Returns the
state after the generator is finished and the chunks delivered. -/
def run_generator (s : HandlerState) (size pulls : Nat) : HandlerState × List Nat :=
  ({ s with tempDirDeleted := true }, (chunkSizes size).take pulls)

/-- src/app.py:161-228: the pipeline stage of the handler, entered after
auth, quota and URL validation: `tempfile.mkdtemp`, the yt-dlp run, the
ffmpeg run (both `check=True`, so a nonzero exit raises
`CalledProcessError`), `os.path.getsize`, then the streamed response.  A
`CalledProcessError` from either tool is caught at src/app.py:222-228:
`shutil.rmtree(temp_dir)` then the 500 JSON with the captured stderr.  The
external-tool contract (exit 0 produces the output file) makes `getsize`
total here. -/
def run_pipeline (env : HandlerEnv) (url : String) (s : HandlerState) :
    HandlerState × PyResult HandlerResult :=
  let temp_dir := env.pipe.tempDirName
  let video_path := temp_dir ++ "/video.mp4"
  let audio_path := temp_dir ++ "/audio.mp3"
  let s1 : HandlerState := { s with tempDirCreated := true }
  let s2 : HandlerState := { s1 with spawned := s1.spawned ++ [ytdlpArgv video_path url] }
  if env.pipe.downloaderExit ≠ 0 then
    ({ s2 with tempDirDeleted := true }, .ok (.pipelineError env.pipe.downloaderStderr))
  else
    let s3 : HandlerState := { s2 with spawned := s2.spawned ++ [ffmpegArgv video_path audio_path] }
    if env.pipe.transcoderExit ≠ 0 then
      ({ s3 with tempDirDeleted := true }, .ok (.pipelineError env.pipe.transcoderStderr))
    else
      let r := run_generator s3 env.pipe.mp3Size env.pipe.consumerPulls
      (r.1, .ok (.audioStream env.pipe.mp3Size r.2))

/-- src/app.py:144-228: the authenticated tail of the handler — the quota
upsert and threshold check (429 carries `QUOTA_PER_HOUR` and the truncated
clock reading as `reset_at`), payload extraction (which can raise), the
`not url or not is_valid_tiktok_url(url)` check, then the pipeline. -/
def handle_authed (env : HandlerEnv) (body : Option JsonObj) (uid : String)
    (s : HandlerState) : HandlerState × PyResult HandlerResult :=
  let r := increment_usage s.ledger uid env.bucket
  let s1 : HandlerState := { s with ledger := r.1, dbCalls := s.dbCalls + 1 }
  if QUOTA_PER_HOUR < r.2 then
    (s1, .ok (.quotaExceeded QUOTA_PER_HOUR (truncToHour env.now)))
  else
    match extract_url body with
    | .exn e => (s1, .exn e)
    | .ok none => (s1, .ok .invalidUrl)
    | .ok (some url) =>
      if url = "" ∨ is_valid_tiktok_url url = false then (s1, .ok .invalidUrl)
      else run_pipeline env url s1

/-- src/app.py:133-228 `tiktok_mp3`: the OPTIONS fast path, then
authentication — `if not user_id: return 401`, which also fires for an
empty-string subject since `""` is falsy — then the authenticated tail. -/
def tiktok_mp3 (env : HandlerEnv) (method : String) (authHeader : Option String)
    (body : Option JsonObj) (s : HandlerState) : HandlerState × PyResult HandlerResult :=
  if method = "OPTIONS" then (s, .ok .optionsOk)
  else
    match verify_jwt_and_get_user env.cfg env.world authHeader with
    | none => (s, .ok .unauthorized)
    | some uid =>
      if uid = "" then (s, .ok .unauthorized)
      else handle_authed env body uid s

/-! ## Quota ledger lemmas -/

lemma findRow_updateRow (rows : Ledger) (uid : String) (bucket v : Nat)
    (h : ∃ c, findRow rows uid bucket = some c) :
    findRow (updateRow rows uid bucket v) uid bucket = some v := by
  induction rows with
  | nil => rcases h with ⟨c, hc⟩; simp [findRow] at hc
  | cons head rest ih =>
    obtain ⟨u, b, c0⟩ := head
    by_cases hk : u = uid ∧ b = bucket
    · simp [updateRow, findRow, hk]
    · rcases h with ⟨c, hc⟩
      simp [findRow, hk] at hc
      simp [updateRow, findRow, hk]
      exact ih ⟨c, hc⟩

lemma increment_usage_fresh (rows : Ledger) (uid : String) (bucket : Nat)
    (h : findRow rows uid bucket = none) :
    increment_usage rows uid bucket = ((uid, bucket, 1) :: rows, 1) := by
  simp [increment_usage, h]

lemma increment_usage_existing (rows : Ledger) (uid : String) (bucket c : Nat)
    (h : findRow rows uid bucket = some c) :
    (increment_usage rows uid bucket).2 = c + 1 ∧
    findRow (increment_usage rows uid bucket).1 uid bucket = some (c + 1) := by
  refine ⟨by simp [increment_usage, h], ?_⟩
  simp [increment_usage, h]
  exact findRow_updateRow rows uid bucket (c + 1) ⟨c, h⟩

lemma findRow_cons_self (rows : Ledger) (uid : String) (bucket c : Nat) :
    findRow ((uid, bucket, c) :: rows) uid bucket = some c := by
  simp [findRow]

lemma iterate_usage_invariant (rows : Ledger) (uid : String) (bucket : Nat)
    (h : findRow rows uid bucket = none) (n : Nat) :
    findRow (iterate_usage rows uid bucket (n + 1)).1 uid bucket = some (n + 1) ∧
    (iterate_usage rows uid bucket (n + 1)).2 = n + 1 := by
  induction n with
  | zero =>
    simp [iterate_usage, increment_usage_fresh rows uid bucket h, findRow_cons_self]
  | succ m ih =>
    have step :
        iterate_usage rows uid bucket (m + 2) =
          increment_usage (iterate_usage rows uid bucket (m + 1)).1 uid bucket := rfl
    obtain ⟨ihFind, _⟩ := ih
    obtain ⟨h1, h2⟩ :=
      increment_usage_existing (iterate_usage rows uid bucket (m + 1)).1 uid bucket (m + 1) ihFind
    rw [step]
    exact ⟨h2, h1⟩

/-- C4: for every caller identity, the Nth request within one hour bucket
drives the stored count for that (identity, bucket) pair to exactly N — the
upsert is a single operation returning the post-increment count — and the
first request in a bucket with no row yet (a new hour bucket) starts a fresh
count at 1. -/
theorem nth_increment_yields_n (rows : Ledger) (uid : String) (bucket : Nat)
    (h : findRow rows uid bucket = none) (n : Nat) :
    (iterate_usage rows uid bucket (n + 1)).2 = n + 1 ∧
    findRow (iterate_usage rows uid bucket (n + 1)).1 uid bucket = some (n + 1) ∧
    increment_usage rows uid bucket = ((uid, bucket, 1) :: rows, 1) := by
  obtain ⟨h1, h2⟩ := iterate_usage_invariant rows uid bucket h n
  exact ⟨h2, h1, increment_usage_fresh rows uid bucket h⟩

/-- Witness for C4 at a concrete table: a table holding only a row for
another user, identity "u1", bucket 9, three requests. -/
theorem nth_increment_yields_n_wit :
    (iterate_usage [("u2", 5, 7)] "u1" 9 3).2 = 3 ∧
    findRow (iterate_usage [("u2", 5, 7)] "u1" 9 3).1 "u1" 9 = some 3 ∧
    increment_usage [("u2", 5, 7)] "u1" 9 = (("u1", 9, 1) :: [("u2", 5, 7)], 1) :=
  nth_increment_yields_n [("u2", 5, 7)] "u1" 9 (by decide) 2

/-- C9: `increment_usage` returns its connection to the pool on every
execution path — whether the SQL body succeeds or raises, the `finally`
block restores the pool's checked-out count to its pre-call value. -/
theorem increment_usage_releases_conn (o : DbOutcome) (p : PoolState)
    (rows : Ledger) (uid : String) (bucket : Nat) :
    (increment_usage_pooled o p rows uid bucket).1.checkedOut = p.checkedOut := by
  cases o <;> simp [increment_usage_pooled]

/-! ## Pipeline and handler lemmas -/

lemma run_pipeline_deletes (env : HandlerEnv) (url : String) (s : HandlerState) :
    (run_pipeline env url s).1.tempDirDeleted = true := by
  simp only [run_pipeline, run_generator]
  split
  · rfl
  · split
    · rfl
    · rfl

lemma run_pipeline_ledger (env : HandlerEnv) (url : String) (s : HandlerState) :
    (run_pipeline env url s).1.ledger = s.ledger ∧
    (run_pipeline env url s).1.dbCalls = s.dbCalls := by
  simp only [run_pipeline, run_generator]
  split
  · exact ⟨rfl, rfl⟩
  · split
    · exact ⟨rfl, rfl⟩
    · exact ⟨rfl, rfl⟩

lemma run_pipeline_spawned (env : HandlerEnv) (url : String) (s : HandlerState) :
    (run_pipeline env url s).1.spawned =
      s.spawned ++ [ytdlpArgv (env.pipe.tempDirName ++ "/video.mp4") url] ++
        (if env.pipe.downloaderExit = 0 then
          [ffmpegArgv (env.pipe.tempDirName ++ "/video.mp4")
            (env.pipe.tempDirName ++ "/audio.mp3")]
        else []) := by
  simp only [run_pipeline, run_generator]
  split
  · rename_i hdl
    simp [hdl]
  · rename_i hdl
    simp only [ne_eq, Decidable.not_not] at hdl
    split
    · simp [hdl]
    · simp [hdl]

lemma run_pipeline_no_invalid (env : HandlerEnv) (url : String) (s : HandlerState) :
    (run_pipeline env url s).2 ≠ PyResult.ok HandlerResult.invalidUrl := by
  simp only [run_pipeline, run_generator]
  split
  · simp
  · split
    · simp
    · simp

lemma tiktok_mp3_authed (env : HandlerEnv) (method : String)
    (authHeader : Option String) (body : Option JsonObj) (s : HandlerState)
    (uid : String) (hm : method ≠ "OPTIONS")
    (hv : verify_jwt_and_get_user env.cfg env.world authHeader = some uid)
    (hu : uid ≠ "") :
    tiktok_mp3 env method authHeader body s = handle_authed env body uid s := by
  unfold tiktok_mp3
  rw [if_neg hm, hv]
  simp only
  rw [if_neg hu]

lemma tiktok_mp3_unauthed (env : HandlerEnv) (method : String)
    (authHeader : Option String) (body : Option JsonObj) (s : HandlerState)
    (hm : method ≠ "OPTIONS")
    (hv : verify_jwt_and_get_user env.cfg env.world authHeader = none) :
    tiktok_mp3 env method authHeader body s = (s, .ok .unauthorized) := by
  unfold tiktok_mp3
  rw [if_neg hm, hv]

lemma handle_authed_over (env : HandlerEnv) (body : Option JsonObj)
    (uid : String) (s : HandlerState)
    (hq : QUOTA_PER_HOUR < (increment_usage s.ledger uid env.bucket).2) :
    handle_authed env body uid s =
      ({ s with ledger := (increment_usage s.ledger uid env.bucket).1,
                dbCalls := s.dbCalls + 1 },
       .ok (.quotaExceeded QUOTA_PER_HOUR (truncToHour env.now))) := by
  simp only [handle_authed]
  rw [if_pos hq]

lemma handle_authed_effects (env : HandlerEnv) (body : Option JsonObj)
    (uid : String) (s : HandlerState) :
    (handle_authed env body uid s).1.ledger =
      (increment_usage s.ledger uid env.bucket).1 ∧
    (handle_authed env body uid s).1.dbCalls = s.dbCalls + 1 := by
  simp only [handle_authed]
  split
  · exact ⟨rfl, rfl⟩
  · split
    · exact ⟨rfl, rfl⟩
    · exact ⟨rfl, rfl⟩
    · split
      · exact ⟨rfl, rfl⟩
      · rename_i url _ _
        obtain ⟨h1, h2⟩ := run_pipeline_ledger env url
          { s with ledger := (increment_usage s.ledger uid env.bucket).1,
                   dbCalls := s.dbCalls + 1 }
        exact ⟨h1, h2⟩

lemma handle_authed_cleanup (env : HandlerEnv) (body : Option JsonObj)
    (uid : String) (s : HandlerState) (h0 : s.tempDirCreated = false) :
    (handle_authed env body uid s).1.tempDirCreated = true →
    (handle_authed env body uid s).1.tempDirDeleted = true := by
  simp only [handle_authed]
  split
  · intro hc; rw [h0] at hc; exact absurd hc (by simp)
  · split
    · intro hc; rw [h0] at hc; exact absurd hc (by simp)
    · intro hc; rw [h0] at hc; exact absurd hc (by simp)
    · split
      · intro hc; rw [h0] at hc; exact absurd hc (by simp)
      · rename_i url _ _
        intro _
        exact run_pipeline_deletes env url _

/-! ## Claim theorems -/

/-- C1: for every request that reaches the pipeline stage (temporary
directory created), when the handler — including the response stream —
finishes, the temporary workspace has been deleted: the downloader-failure
and transcoder-failure paths delete it in the `except` branch, and the
streaming path deletes it in the generator's `finally`, whether the stream
was fully consumed or closed partway by the consumer. -/
theorem cleanup_runs_on_every_path (env : HandlerEnv) (method : String)
    (authHeader : Option String) (body : Option JsonObj) (s : HandlerState)
    (h0 : s.tempDirCreated = false) :
    (tiktok_mp3 env method authHeader body s).1.tempDirCreated = true →
    (tiktok_mp3 env method authHeader body s).1.tempDirDeleted = true := by
  unfold tiktok_mp3
  split
  · intro hc; rw [h0] at hc; exact absurd hc (by simp)
  · split
    · intro hc; rw [h0] at hc; exact absurd hc (by simp)
    · rename_i uid heq
      split
      · intro hc; rw [h0] at hc; exact absurd hc (by simp)
      · exact handle_authed_cleanup env body uid s h0

/-- C5: a request whose post-increment count exceeds the threshold is
rejected with the 429 response and never spawns a child process — the
spawned-argv list is exactly what it was before the request. -/
theorem over_quota_never_spawns (env : HandlerEnv) (method : String)
    (authHeader : Option String) (body : Option JsonObj) (s : HandlerState)
    (uid : String) (hm : method ≠ "OPTIONS")
    (hv : verify_jwt_and_get_user env.cfg env.world authHeader = some uid)
    (hu : uid ≠ "")
    (hq : QUOTA_PER_HOUR < (increment_usage s.ledger uid env.bucket).2) :
    (tiktok_mp3 env method authHeader body s).1.spawned = s.spawned ∧
    (tiktok_mp3 env method authHeader body s).2 =
      .ok (.quotaExceeded QUOTA_PER_HOUR (truncToHour env.now)) ∧
    statusCode (.quotaExceeded QUOTA_PER_HOUR (truncToHour env.now)) = 429 := by
  rw [tiktok_mp3_authed env method authHeader body s uid hm hv hu,
    handle_authed_over env body uid s hq]
  exact ⟨rfl, rfl, rfl⟩

/-- C10: every authenticated request — over-quota rejections included —
performs exactly one quota upsert, applied before the threshold comparison:
the resulting table is `increment_usage` of the old one, the upsert-call
count rises by one, and a saturated bucket's counter keeps growing with each
further rejected attempt. -/
theorem quota_charged_even_when_rejected (env : HandlerEnv) (method : String)
    (authHeader : Option String) (body : Option JsonObj) (s : HandlerState)
    (uid : String) (hm : method ≠ "OPTIONS")
    (hv : verify_jwt_and_get_user env.cfg env.world authHeader = some uid)
    (hu : uid ≠ "") :
    (tiktok_mp3 env method authHeader body s).1.ledger =
      (increment_usage s.ledger uid env.bucket).1 ∧
    (tiktok_mp3 env method authHeader body s).1.dbCalls = s.dbCalls + 1 ∧
    (∀ c, findRow s.ledger uid env.bucket = some c →
      findRow (tiktok_mp3 env method authHeader body s).1.ledger uid env.bucket =
        some (c + 1)) := by
  rw [tiktok_mp3_authed env method authHeader body s uid hm hv hu]
  obtain ⟨h1, h2⟩ := handle_authed_effects env body uid s
  refine ⟨h1, h2, ?_⟩
  intro c hc
  rw [h1]
  exact (increment_usage_existing s.ledger uid env.bucket c hc).2

/-- C6: a request whose bearer token fails verification for any of the
listed reasons — header absent or not of the form `Bearer <token>`, signing
key not found, bad signature, wrong issuer, wrong audience, or expired —
collapses to the single unauthenticated outcome: the handler answers 401,
leaves the request state untouched (in particular no quota increment), and
propagates no exception. -/
theorem invalid_token_401_no_increment (env : HandlerEnv) (method : String)
    (authHeader : Option String) (body : Option JsonObj) (s : HandlerState)
    (hm : method ≠ "OPTIONS")
    (hfail : pyStartsWith (authHeader.getD "") "Bearer " = false
      ∨ (env.world (pyDrop (authHeader.getD "") 7)).kidFound = false
      ∨ (env.world (pyDrop (authHeader.getD "") 7)).sigValid = false
      ∨ (env.world (pyDrop (authHeader.getD "") 7)).issuer ≠ env.cfg.jwt_issuer
      ∨ (env.world (pyDrop (authHeader.getD "") 7)).audience ≠ env.cfg.jwt_audience
      ∨ (env.world (pyDrop (authHeader.getD "") 7)).expired = true) :
    verify_jwt_and_get_user env.cfg env.world authHeader = none ∧
    tiktok_mp3 env method authHeader body s = (s, .ok .unauthorized) ∧
    statusCode HandlerResult.unauthorized = 401 := by
  have hv : verify_jwt_and_get_user env.cfg env.world authHeader = none := by
    unfold verify_jwt_and_get_user
    simp only
    split
    · rename_i hstart
      split
      · rename_i hkid
        split
        · rename_i hcond
          obtain ⟨ha, hsig, hiss, haud, hexp⟩ := hcond
          rcases hfail with h | h | h | h | h | h
          · rw [hstart] at h; exact absurd h (by simp)
          · rw [hkid] at h; exact absurd h (by simp)
          · rw [hsig] at h; exact absurd h (by simp)
          · exact absurd hiss h
          · exact absurd haud h
          · rw [hexp] at h; exact absurd h (by simp)
        · rfl
      · rfl
    · rfl
  exact ⟨hv, tiktok_mp3_unauthed env method authHeader body s hm hv, rfl⟩

/-- C7: a token whose signature algorithm is not ES256 is rejected:
`jwt.decode` is called with `algorithms=["ES256"]`, so verification yields
no caller identity for any such token. -/
theorem non_es256_rejected (cfg : AuthConfig) (world : String → Token)
    (authHeader : Option String)
    (halg : (world (pyDrop (authHeader.getD "") 7)).alg ≠ "ES256") :
    verify_jwt_and_get_user cfg world authHeader = none := by
  unfold verify_jwt_and_get_user
  simp only
  split
  · split
    · split
      · rename_i hcond
        exact absurd hcond.1 halg
      · rfl
    · rfl
  · rfl

/-! ## Concrete fixtures -/

def cfgEx : AuthConfig := ⟨"https://issuer.example", "authenticated"⟩

def tokEx : Token :=
  ⟨true, "ES256", true, "https://issuer.example", "authenticated", false, "u1"⟩

def worldEx : String → Token := fun _ => tokEx

/-- A clock reading at minute 30 of absolute hour 498000. -/
def nowEx : UtcTime := ⟨498000, 30, 15, 250⟩

def pipeOkEx : PipelineEnv := ⟨"/tmp/tiktok_mp3_abc", 0, "", 0, "", 3, 5⟩

def pipeDlFail : PipelineEnv :=
  ⟨"/tmp/tiktok_mp3_abc", 1, "yt-dlp: unable to download", 0, "", 3, 5⟩

def envOk : HandlerEnv := ⟨cfgEx, worldEx, pipeOkEx, nowEx, 498000⟩

def envDlFail : HandlerEnv := ⟨cfgEx, worldEx, pipeDlFail, nowEx, 498000⟩

def bodyOk : Option JsonObj := some [("url", .jstr "https://tiktok.com/@a/video/123")]

/-- State in which "u1" has already used the full hourly quota. -/
def state30 : HandlerState := ⟨[("u1", 498000, 30)], 0, [], false, false⟩

/-! ## Remaining claim theorems -/

/-- C2 is refuted on the code: the 429 body's `reset_at` is
`datetime.now(utc).replace(minute=0, second=0, microsecond=0)` — the start
of the CURRENT hour, a time already past — not the start of the next hour
that the spec requires. At a clock reading of minute 30 of hour 498000, an
over-quota request is answered 429 with limit 30 and `reset_at` hour 498000,
while the next hour boundary is 498001. -/
theorem reset_at_is_current_hour_not_next :
    (tiktok_mp3 envOk "POST" (some "Bearer t") bodyOk state30).2 =
      .ok (.quotaExceeded 30 ⟨498000, 0, 0, 0⟩) ∧
    truncToHour nowEx ≠ spec_next_hour_boundary nowEx ∧
    spec_next_hour_boundary nowEx = ⟨498001, 0, 0, 0⟩ := by
  refine ⟨by decide, by decide, by decide⟩

/-- C3 is refuted on the code: for an authenticated, under-quota request
whose JSON body is a non-empty object without a `"url"` key,
`data.get("url")` is `None` and `None.strip()` raises `AttributeError`,
which escapes the handler instead of the 400 the spec requires. -/
theorem missing_url_key_raises_attribute_error :
    (tiktok_mp3 envOk "POST" (some "Bearer t")
        (some [("foo", .jstr "bar")]) initState).2 =
      .exn .attributeError := by
  decide

/-- C8: a string `"url"` value is stripped of surrounding whitespace before
URL validation and before being handed to the downloader: whenever the
trimmed value is non-empty and passes validation, the request reaches the
pipeline (it is not rejected as an invalid URL) and the first spawned child
process is the yt-dlp invocation whose final argument is the trimmed
string. -/
theorem url_stripped_before_validation_and_downloader
    (env : HandlerEnv) (method : String) (authHeader : Option String)
    (obj : JsonObj) (raw : String) (s : HandlerState) (uid : String)
    (hm : method ≠ "OPTIONS")
    (hv : verify_jwt_and_get_user env.cfg env.world authHeader = some uid)
    (hu : uid ≠ "")
    (hq : ¬ QUOTA_PER_HOUR < (increment_usage s.ledger uid env.bucket).2)
    (hobj : obj ≠ [])
    (hurl : dictGet obj "url" = some (.jstr raw))
    (hne : pyStrip raw ≠ "")
    (hvalid : is_valid_tiktok_url (pyStrip raw) = true)
    (hsp : s.spawned = []) :
    ((tiktok_mp3 env method authHeader (some obj) s).1.spawned).head? =
      some (ytdlpArgv (env.pipe.tempDirName ++ "/video.mp4") (pyStrip raw)) ∧
    (tiktok_mp3 env method authHeader (some obj) s).2 ≠
      PyResult.ok HandlerResult.invalidUrl := by
  rw [tiktok_mp3_authed env method authHeader (some obj) s uid hm hv hu]
  have hie : obj.isEmpty = false := by
    cases obj with
    | nil => exact absurd rfl hobj
    | cons a t => rfl
  have hext : extract_url (some obj) = .ok (some (pyStrip raw)) := by
    simp [extract_url, hie, hurl]
  simp only [handle_authed]
  rw [if_neg hq, hext]
  simp only
  rw [if_neg (by simp [hne, hvalid])]
  constructor
  · rw [run_pipeline_spawned]
    simp [hsp]
  · exact run_pipeline_no_invalid env (pyStrip raw) _

/-! ## Witnesses -/

/-- Witness for C1: a concrete request whose downloader exits nonzero; the
pipeline stage is reached and the workspace is deleted. -/
theorem cleanup_runs_on_every_path_wit :
    (tiktok_mp3 envDlFail "POST" (some "Bearer t") bodyOk initState).1.tempDirDeleted
      = true :=
  cleanup_runs_on_every_path envDlFail "POST" (some "Bearer t") bodyOk initState
    rfl (by decide)

/-- Witness for C5: the 31st request of "u1" in one bucket is answered 429
and spawns nothing. -/
theorem over_quota_never_spawns_wit :
    (tiktok_mp3 envOk "POST" (some "Bearer t") bodyOk state30).1.spawned =
      state30.spawned ∧
    (tiktok_mp3 envOk "POST" (some "Bearer t") bodyOk state30).2 =
      .ok (.quotaExceeded QUOTA_PER_HOUR (truncToHour envOk.now)) ∧
    statusCode (.quotaExceeded QUOTA_PER_HOUR (truncToHour envOk.now)) = 429 :=
  over_quota_never_spawns envOk "POST" (some "Bearer t") bodyOk state30 "u1"
    (by decide) (by decide) (by decide) (by decide)

/-- Witness for C10: the rejected 31st request has still incremented the
stored count, to 31. -/
theorem quota_charged_even_when_rejected_wit :
    (tiktok_mp3 envOk "POST" (some "Bearer t") bodyOk state30).1.ledger =
      (increment_usage state30.ledger "u1" envOk.bucket).1 ∧
    findRow (tiktok_mp3 envOk "POST" (some "Bearer t") bodyOk state30).1.ledger
      "u1" envOk.bucket = some 31 :=
  ⟨(quota_charged_even_when_rejected envOk "POST" (some "Bearer t") bodyOk state30
      "u1" (by decide) (by decide) (by decide)).1,
   (quota_charged_even_when_rejected envOk "POST" (some "Bearer t") bodyOk state30
      "u1" (by decide) (by decide) (by decide)).2.2 30 (by decide)⟩

/-- Witness for C6: a request with no Authorization header at all is
answered 401 with the state untouched. -/
theorem invalid_token_401_no_increment_wit :
    verify_jwt_and_get_user envOk.cfg envOk.world none = none ∧
    tiktok_mp3 envOk "POST" none bodyOk initState = (initState, .ok .unauthorized) ∧
    statusCode HandlerResult.unauthorized = 401 :=
  invalid_token_401_no_increment envOk "POST" none bodyOk initState (by decide)
    (Or.inl (by decide))

/-- A token identical to the valid fixture except that it is RS256-signed. -/
def tokRS : Token :=
  ⟨true, "RS256", true, "https://issuer.example", "authenticated", false, "u1"⟩

def worldRS : String → Token := fun _ => tokRS

/-- Witness for C7: an RS256 token, valid in every other respect, yields no
identity. -/
theorem non_es256_rejected_wit :
    verify_jwt_and_get_user cfgEx worldRS (some "Bearer t") = none :=
  non_es256_rejected cfgEx worldRS (some "Bearer t") (by decide)

/-- Witness for C8: the value `"  https://tiktok.com/x  "` is accepted and
the downloader receives the trimmed `"https://tiktok.com/x"`. -/
theorem url_stripped_before_validation_and_downloader_wit :
    ((tiktok_mp3 envOk "POST" (some "Bearer t")
        (some [("url", .jstr "  https://tiktok.com/x  ")]) initState).1.spawned).head?
      = some (ytdlpArgv (envOk.pipe.tempDirName ++ "/video.mp4")
          "https://tiktok.com/x") ∧
    (tiktok_mp3 envOk "POST" (some "Bearer t")
        (some [("url", .jstr "  https://tiktok.com/x  ")]) initState).2 ≠
      PyResult.ok HandlerResult.invalidUrl := by
  have hps : pyStrip "  https://tiktok.com/x  " = "https://tiktok.com/x" := by decide
  have h := url_stripped_before_validation_and_downloader envOk "POST"
    (some "Bearer t") [("url", .jstr "  https://tiktok.com/x  ")]
    "  https://tiktok.com/x  " initState "u1" (by decide) (by decide) (by decide)
    (by decide) (by decide) (by decide) (by decide) (by decide) (by decide)
  rw [hps] at h
  exact h

/-- Witness for C4 freshness under an existing different-bucket row: after
30 requests in hour bucket 9, the first request of "u1" in the next bucket
10 starts at count 1 again. -/
theorem fresh_bucket_restarts_at_one :
    (increment_usage (iterate_usage [] "u1" 9 30).1 "u1" 10).2 = 1 := by
  decide
